import Mathlib

/-!
Shallow embedding of the Avante business-verification service.

Sources embedded here:
* the single-verify edge function (`serve` in the verify-business function,
  together with `fetchAccountPayments`, `isValidPiWalletAddress`,
  `isValidWebhookUrl` and `sendWebhookNotification`);
* the batch edge function (`serve`, `processVerification`,
  `processWithConcurrency` and the batch `sendWebhookNotification`);
* the SQL functions `check_rate_limit` and `check_verification_allowance`
  from the migrations.

Timestamps are modelled as natural numbers of milliseconds, machine
integers as `Nat` (all counters in the source are non-negative and far
from overflow), JavaScript `Set<string>` as a duplicate-free list built
by insertion, and fallible external calls (database RPCs, HTTP fetches)
as explicit `Except`/sum-type inputs to the pipeline functions.
-/

namespace AvanteVerifier

/-- One hour in milliseconds: `CACHE_DURATION_MS = 60 * 60 * 1000`. -/
def CACHE_DURATION_MS : Nat := 60 * 60 * 1000

/-- `isValidPiWalletAddress`: the regex `^G[A-Z2-7]{55}$` — first character
`G`, then exactly 55 characters from the Stellar base32 alphabet. -/
def isBase32Char (c : Char) : Bool :=
  (('A' ≤ c) && (c ≤ 'Z')) || (('2' ≤ c) && (c ≤ '7'))

/-- `/^G[A-Z2-7]{55}$/.test(address)` from the source. -/
def isValidPiWalletAddress (address : String) : Bool :=
  match address.toList with
  | c :: rest => (c == 'G') && (rest.length == 55) && rest.all isBase32Char
  | [] => false

/-- `isValidWebhookUrl`: the source parses the URL and accepts protocol
`http:` or `https:`; we model acceptance by the URL scheme prefix. -/
def isValidWebhookUrl (url : String) : Bool :=
  url.startsWith "https://" || url.startsWith "http://"

/-- JavaScript `String.prototype.trim`: strip leading and trailing
whitespace (modelled over the common ASCII whitespace characters). -/
def isJsWhitespace (c : Char) : Bool :=
  c == ' ' || c == '\t' || c == '\n' || c == '\r'

/-- `.trim()` as used throughout the handlers. -/
def jsTrim (s : String) : String :=
  String.mk (((s.toList.dropWhile isJsWhitespace).reverse.dropWhile
    isJsWhitespace).reverse)

/-- JavaScript truthiness test used on optional request strings:
`!s || s.trim().length === 0`. -/
def isBlankField (s : Option String) : Bool :=
  match s with
  | none => true
  | some str => (jsTrim str).length == 0

/-- A Horizon payment record as consumed by the scan loop: its `type`,
`from` and `to` account fields.  A missing (`undefined`) or empty account
field is modelled as `""`, which is exactly what the JavaScript truthiness
test `counterparty && ...` rejects. -/
structure PaymentRecord where
  type : String
  from_ : String
  to_ : String
  paging_token : String
deriving Repr, DecidableEq

/-- The four operation types counted by the scan loop. -/
def paymentTypes : List String :=
  ["payment", "path_payment", "path_payment_strict_send", "path_payment_strict_receive"]

/-- Insertion into the `uniqueWallets : Set<string>`: add only if absent. -/
def setAdd (s : List String) (x : String) : List String :=
  if s.contains x then s else s ++ [x]

/-- The body of the `for (const payment of records)` loop in
`fetchAccountPayments`: count the record if its type is a payment type,
and add the counterparty (`from == wallet ? to : from`) to the unique set
when it is non-empty and not the queried wallet itself. -/
def scanStep (wallet : String) (acc : Nat × List String) (p : PaymentRecord) :
    Nat × List String :=
  if paymentTypes.contains p.type then
    let counterparty := if p.from_ == wallet then p.to_ else p.from_
    let uniq :=
      if counterparty ≠ "" && counterparty ≠ wallet then setAdd acc.2 counterparty
      else acc.2
    (acc.1 + 1, uniq)
  else acc

/-- Scanning a list of payment records, starting from accumulated
`(totalTransactions, uniqueWallets)`. -/
def scanRecords (wallet : String) (records : List PaymentRecord)
    (acc : Nat × List String) : Nat × List String :=
  records.foldl (scanStep wallet) acc

/-- Modelled from the spec: the `credited` counter (spec §3 and §4.B step 2,
"if `payment.to == wallet` (wallet is the receiver), increment `credited`").
The source code computes no such counter; this definition follows the
spec's words so that the three-threshold decision claim can be stated. -/
def spec_creditedCount (wallet : String) (records : List PaymentRecord) : Nat :=
  (records.filter (fun p => paymentTypes.contains p.type && p.to_ == wallet)).length

/-- Outcome of one HTTP fetch of a payments page, as seen by
`fetchAccountPayments`: a successful JSON page of records, a non-2xx
response with its status code and status text, an abort (the 30 s
timeout firing), or another network error. -/
inductive PageFetchResult where
  | ok (records : List PaymentRecord)
  | status (code : Nat) (statusText : String)
  | abortError
  | networkError (message : String)
deriving Repr

/-- The typed errors that escape `fetchAccountPayments`: a thrown
`Error('Pi Network API error: ...')`, the timeout rewrite
`Error('Pi Network API request timed out')`, or a rethrown network error. -/
inductive LedgerError where
  | api (code : Nat) (statusText : String)
  | timeout
  | network (message : String)
deriving Repr, DecidableEq

/-- The `error.message` the orchestrator's catch-all sees for each
ledger error. -/
def LedgerError.message : LedgerError → String
  | .api code statusText => s!"Pi Network API error: {code} {statusText}"
  | .timeout => "Pi Network API request timed out"
  | .network m => m

/-- `fetchAccountPayments`' pagination loop over the successive HTTP
results the ledger returns (`pages`): a 404 returns fresh zero counters,
any other non-2xx throws, an abort becomes the timeout error, and a page
of records is folded through `scanStep`; the loop stops on an empty page,
on reaching 10 000 counted transactions, or on a short page
(`records.length < 200`).  An exhausted `pages` list stands for the
remote returning no further records. -/
def fetchAccountPayments (wallet : String) :
    List PageFetchResult → Nat → List String →
    Except LedgerError (Nat × List String)
  | [], total, uniq => .ok (total, uniq)
  | page :: rest, total, uniq =>
    match page with
    | .abortError => .error .timeout
    | .networkError m => .error (.network m)
    | .status code statusText =>
      if code == 404 then .ok (0, [])
      else .error (.api code statusText)
    | .ok records =>
      if records.isEmpty then .ok (total, uniq)
      else
        let acc := scanRecords wallet records (total, uniq)
        if 10000 ≤ acc.1 then .ok acc
        else if records.length < 200 then .ok acc
        else fetchAccountPayments wallet rest acc.1 acc.2

/-- The decision rule of the single-verify orchestrator (its only two
conjuncts): `totalTransactions >= effectiveMinTransactions &&
uniqueWallets >= effectiveMinUniqueWallets`. -/
def meetsRequirementsCalc (total unique minTransactions minUniqueWallets : Nat) : Bool :=
  decide (minTransactions ≤ total) && decide (minUniqueWallets ≤ unique)

/-- The single-verify `failureReason` construction. -/
def failureReasonCalc (total unique minTransactions minUniqueWallets : Nat) :
    Option String :=
  if meetsRequirementsCalc total unique minTransactions minUniqueWallets then none
  else if total < minTransactions && unique < minUniqueWallets then
    some s!"Insufficient transactions ({total}/{minTransactions}) and unique wallets ({unique}/{minUniqueWallets})"
  else if total < minTransactions then
    some s!"Insufficient transactions ({total}/{minTransactions})"
  else
    some s!"Insufficient unique wallets ({unique}/{minUniqueWallets})"

/-- `verificationStatus = meetsRequirements ? 'approved' : 'rejected'`. -/
def verificationStatusCalc (total unique minTransactions minUniqueWallets : Nat) :
    String :=
  if meetsRequirementsCalc total unique minTransactions minUniqueWallets
  then "approved" else "rejected"

/-! ### The SQL rate limiter (`check_rate_limit`) -/

/-- A row of `verification_rate_limits` (the fields the function reads). -/
structure RateBucket where
  request_count : Nat
  window_start : Nat
deriving Repr, DecidableEq

/-- The row returned by `check_rate_limit`. -/
structure RateLimitRow where
  allowed : Bool
  current_count : Nat
  reset_at : Nat
deriving Repr, DecidableEq

/-- `public.check_rate_limit(p_wallet_address, p_max_requests,
p_window_hours)` over the wallet's existing bucket (if any), the current
time and the window length (in the same time unit).  The reset condition
in the source is `v_record.window_start < now() - window`, written here in
the subtraction-free form `window_start + window < now`.  Returns the
result row together with the bucket state after the call. -/
def check_rate_limit (existing : Option RateBucket) (now maxRequests window : Nat) :
    RateLimitRow × RateBucket :=
  match existing with
  | none =>
    ({ allowed := true, current_count := 1, reset_at := now + window },
     { request_count := 1, window_start := now })
  | some r =>
    if r.window_start + window < now then
      ({ allowed := true, current_count := 1, reset_at := now + window },
       { request_count := 1, window_start := now })
    else if maxRequests ≤ r.request_count then
      ({ allowed := false, current_count := r.request_count,
         reset_at := r.window_start + window }, r)
    else
      ({ allowed := true, current_count := r.request_count + 1,
         reset_at := r.window_start + window },
       { request_count := r.request_count + 1, window_start := r.window_start })

/-! ### The SQL allowance checker (`check_verification_allowance`) -/

/-- A row of `user_subscriptions` (the fields the function reads). -/
structure SubscriptionRow where
  tier : String
  verifications_used : Nat
  verifications_limit : Nat
  expires_at : Option Nat
deriving Repr, DecidableEq

/-- The row returned by `check_verification_allowance`. -/
structure AllowanceRow where
  allowed : Bool
  remaining : Nat
  tier : String
  expires_at : Option Nat
deriving Repr, DecidableEq

/-- `public.check_verification_allowance(p_external_user_id)` over the
user's existing subscription row (if any) and the current time: a missing
row is created as free tier `limit 1, used 0`; an expired subscription is
reset to free tier; enterprise is unlimited; otherwise the request is
allowed iff `verifications_used < verifications_limit`. -/
def check_verification_allowance (existing : Option SubscriptionRow) (now : Nat) :
    AllowanceRow :=
  let sub0 :=
    match existing with
    | none =>
      ({ tier := "free", verifications_used := 0, verifications_limit := 1,
         expires_at := none } : SubscriptionRow)
    | some s => s
  let sub :=
    match sub0.expires_at with
    | some e =>
      if e < now then
        ({ tier := "free", verifications_used := 0, verifications_limit := 1,
           expires_at := none } : SubscriptionRow)
      else sub0
    | none => sub0
  if sub.tier == "enterprise" then
    { allowed := true, remaining := 999999, tier := sub.tier,
      expires_at := sub.expires_at }
  else if sub.verifications_limit ≤ sub.verifications_used then
    { allowed := false, remaining := 0, tier := sub.tier,
      expires_at := sub.expires_at }
  else
    { allowed := true, remaining := sub.verifications_limit - sub.verifications_used,
      tier := sub.tier, expires_at := sub.expires_at }

/-! ### The single-verify orchestrator (`serve`) -/

/-- The parsed single-verify request body.  Optional/omittable JSON fields
are `Option`s; `forceRefresh = false` is its destructuring default. -/
structure ServeRequest where
  walletAddress : Option String
  businessName : Option String
  externalUserId : Option String
  forceRefresh : Bool := false
  webhookUrl : Option String := none
  webhookSecret : Option String := none
  minTransactions : Option Nat := none
  minUniqueWallets : Option Nat := none
deriving Repr

/-- A `business_verifications` row as read back from the store. -/
structure DbRecord where
  id : String
  wallet_address : String
  business_name : String
  external_user_id : String
  total_transactions : Nat
  unique_wallets : Nat
  meets_requirements : Bool
  failure_reason : Option String
  verification_status : String
  updated_at : Nat
deriving Repr, DecidableEq

/-- The external world as the single request observes it: the
authentication outcome, the rate-limit RPC result (`.error` models a
store error), the cache lookup result, the current clock, the ledger's
successive page responses, and the upsert result (the stored row's `id`
on success). -/
structure ServeEnv where
  authOk : Bool
  rateLimitResult : Except Unit (List RateLimitRow)
  cachedRecord : Option DbRecord
  now : Nat
  ledgerPages : List PageFetchResult
  upsertResult : Except Unit String
  usageIncrementFails : Bool := false
deriving Repr

/-- The `data` object of a successful response (single verify). -/
structure ResponseData where
  verificationId : String
  walletAddress : String
  businessName : String
  totalTransactions : Nat
  uniqueWallets : Nat
  meetsRequirements : Bool
  failureReason : Option String
  verificationStatus : String
  verifiedAt : Nat
deriving Repr, DecidableEq

/-- The response as the caller observes it (status code, JSON body fields
and the cache / rate-limit headers the function sets). -/
structure ServeResponse where
  status : Nat
  success : Bool
  cached : Option Bool := none
  cacheExpiresAt : Option Nat := none
  webhookQueued : Option Bool := none
  data : Option ResponseData := none
  errorMsg : Option String := none
  xCache : Option String := none
  xCacheExpires : Option Nat := none
  xRateLimitRemaining : Option Nat := none
  xRateLimitReset : Option Nat := none
deriving Repr

/-- The response together with which side effects the pipeline performed:
whether the rate-limit RPC was invoked, whether a ledger request was
issued, whether the upsert was attempted, and whether
`increment_verification_usage` was called. -/
structure ServeOutcome where
  response : ServeResponse
  rateLimitConsulted : Bool
  ledgerScanPerformed : Bool
  upsertAttempted : Bool
  incrementUsageCalled : Bool
deriving Repr

/-- The response data built from a stored row. -/
def dataOfRecord (r : DbRecord) : ResponseData :=
  { verificationId := r.id, walletAddress := r.wallet_address,
    businessName := r.business_name, totalTransactions := r.total_transactions,
    uniqueWallets := r.unique_wallets, meetsRequirements := r.meets_requirements,
    failureReason := r.failure_reason, verificationStatus := r.verification_status,
    verifiedAt := r.updated_at }

/-- The rate-limit gate of the single-verify `serve` (its guard and its
handling of the RPC result): the RPC is only issued when `walletAddress`
is present with non-blank trim; an RPC error is logged and ignored (fail
open); a refusal is reported when the returned rows are non-empty and the
first row has `allowed = false`.  Returns `(consulted, refusedResetAt)`. -/
def rateLimitGate (walletAddress : Option String)
    (rateLimitResult : Except Unit (List RateLimitRow)) : Bool × Option Nat :=
  match walletAddress with
  | none => (false, none)
  | some w =>
    if 0 < (jsTrim w).length then
      match rateLimitResult with
      | .error _ => (true, none)
      | .ok rows =>
        match rows with
        | [] => (true, none)
        | r :: _ => (true, if r.allowed then none else some r.reset_at)
    else (false, none)

/-- The webhook-URL precondition `!(webhookUrl && !isValidWebhookUrl(webhookUrl))`:
an absent URL is fine, a present one must validate. -/
def optionalWebhookUrlOk (webhookUrl : Option String) : Bool :=
  match webhookUrl with
  | some u => isValidWebhookUrl u
  | none => true

/-- The cache read: skipped entirely under `forceRefresh`; a stored record
is a hit iff its age `now - updated_at` is below `CACHE_DURATION_MS`. -/
def cacheLookup (forceRefresh : Bool) (cachedRecord : Option DbRecord) (now : Nat) :
    Option DbRecord :=
  if forceRefresh then none
  else
    match cachedRecord with
    | some r => if now - r.updated_at < CACHE_DURATION_MS then some r else none
    | none => none

/-- A response carrying only a status code and an error message. -/
def errorResponse (status : Nat) (msg : String) : ServeResponse :=
  { status := status, success := false, errorMsg := some msg }

/-- An outcome that halts before the ledger scan: only the rate-limit
consultation flag may be set. -/
def haltOutcome (resp : ServeResponse) (rateLimitConsulted : Bool) : ServeOutcome :=
  { response := resp, rateLimitConsulted := rateLimitConsulted,
    ledgerScanPerformed := false, upsertAttempted := false,
    incrementUsageCalled := false }

/-- The single-verify `serve` handler from the verify-business function,
step for step: auth check (401), effective thresholds with defaults
`100` and `10`, webhook-URL validation (400), rate limit (429, fail-open
on store error), wallet-format validation (400; a missing `walletAddress`
throws `TypeError` on `.trim()` and lands in the catch-all as 500),
business-name and external-user-id validation (400), cache read (200 HIT
when younger than one hour), ledger scan (errors land in the catch-all as
500), decision, upsert (500 on failure), best-effort usage increment, and
the 200 MISS response.  No allowance check appears anywhere: the handler
never invokes `check_verification_allowance`. -/
def serveVerify (req : ServeRequest) (env : ServeEnv) : ServeOutcome :=
  if !env.authOk then
    haltOutcome (errorResponse 401 "Unauthorized: Invalid or missing API key") false
  else
    let effectiveMinTransactions := req.minTransactions.getD 100
    let effectiveMinUniqueWallets := req.minUniqueWallets.getD 10
    if !optionalWebhookUrlOk req.webhookUrl then
      haltOutcome
        (errorResponse 400 "Invalid webhook URL: must be a valid HTTP/HTTPS URL") false
    else
      let gate := rateLimitGate req.walletAddress env.rateLimitResult
      match gate.2 with
      | some resetAt =>
        haltOutcome
          { errorResponse 429
              "Rate limit exceeded. Maximum 5 verification requests per hour per wallet." with
            xRateLimitRemaining := some 0, xRateLimitReset := some resetAt }
          gate.1
      | none =>
        match req.walletAddress with
        | none =>
          -- `walletAddress.trim()` on `undefined` throws; the catch-all
          -- turns the TypeError into a 500 (runtime-dependent message).
          haltOutcome { status := 500, success := false } gate.1
        | some w =>
          if !isValidPiWalletAddress (jsTrim w) then
            haltOutcome
              (errorResponse 400 "Invalid Pi Network wallet address format. Must be a valid Stellar-compatible address starting with G.")
              gate.1
          else if isBlankField req.businessName then
            haltOutcome (errorResponse 400 "Business name is required") gate.1
          else if isBlankField req.externalUserId then
            haltOutcome (errorResponse 400 "External user ID is required") gate.1
          else
            match cacheLookup req.forceRefresh env.cachedRecord env.now with
            | some r =>
              let cacheExpiresAt := r.updated_at + CACHE_DURATION_MS
              haltOutcome
                { status := 200, success := true, cached := some true,
                  cacheExpiresAt := some cacheExpiresAt,
                  data := some (dataOfRecord r), xCache := some "HIT",
                  xCacheExpires := some cacheExpiresAt }
                gate.1
            | none =>
              match fetchAccountPayments (jsTrim w) env.ledgerPages 0 [] with
              | .error e =>
                { response := errorResponse 500 e.message,
                  rateLimitConsulted := gate.1, ledgerScanPerformed := true,
                  upsertAttempted := false, incrementUsageCalled := false }
              | .ok scan =>
                let totalTransactions := scan.1
                let uniqueWallets := scan.2.length
                let meets := meetsRequirementsCalc totalTransactions uniqueWallets
                  effectiveMinTransactions effectiveMinUniqueWallets
                let reason := failureReasonCalc totalTransactions uniqueWallets
                  effectiveMinTransactions effectiveMinUniqueWallets
                let vstatus := verificationStatusCalc totalTransactions uniqueWallets
                  effectiveMinTransactions effectiveMinUniqueWallets
                match env.upsertResult with
                | .error _ =>
                  { response := errorResponse 500 "Failed to save verification data",
                    rateLimitConsulted := gate.1, ledgerScanPerformed := true,
                    upsertAttempted := true, incrementUsageCalled := false }
                | .ok rowId =>
                  let dbData : DbRecord :=
                    { id := rowId, wallet_address := jsTrim w,
                      business_name := jsTrim (req.businessName.getD ""),
                      external_user_id := jsTrim (req.externalUserId.getD ""),
                      total_transactions := totalTransactions,
                      unique_wallets := uniqueWallets,
                      meets_requirements := meets, failure_reason := reason,
                      verification_status := vstatus, updated_at := env.now }
                  let cacheExpiresAt := env.now + CACHE_DURATION_MS
                  { response :=
                      { status := 200, success := true, cached := some false,
                        cacheExpiresAt := some cacheExpiresAt,
                        webhookQueued := some req.webhookUrl.isSome,
                        data := some (dataOfRecord dbData), xCache := some "MISS",
                        xCacheExpires := some cacheExpiresAt },
                    rateLimitConsulted := gate.1, ledgerScanPerformed := true,
                    upsertAttempted := true, incrementUsageCalled := true }

/-! ### The batch orchestrator (`serve` + `processVerification` +
`processWithConcurrency` from the batch function) -/

/-- One entry of the batch `verifications` array.  A missing field and an
empty string are both falsy under the envelope check `!v.walletAddress`;
both are modelled as `""`. -/
structure BatchEntry where
  walletAddress : String
  businessName : String
  externalUserId : String
deriving Repr, DecidableEq

/-- The `data` object of a successful per-entry result. -/
structure BatchData where
  verificationId : String
  totalTransactions : Nat
  uniqueWallets : Nat
  meetsRequirements : Bool
  failureReason : Option String
  verificationStatus : String
  verifiedAt : Nat
deriving Repr, DecidableEq

/-- A per-entry `VerificationResult` of the batch function. -/
structure VerificationResult where
  walletAddress : String
  businessName : String
  success : Bool
  cached : Option Bool := none
  data : Option BatchData := none
  error : Option String := none
deriving Repr, DecidableEq

/-- The external world as one batch entry's processing observes it. -/
structure EntryEnv where
  rateLimitResult : Except Unit (List RateLimitRow)
  cachedRecord : Option DbRecord
  now : Nat
  ledgerPages : List PageFetchResult
  upsertResult : Except Unit String
deriving Repr

/-- The batch decision's `failureReason`: the failing predicates rendered
as `Only X transactions (requires N+)` / `Only Y unique wallets
(requires M+)`, joined by `; `. -/
def batchFailureReason (total unique minTransactions minUniqueWallets : Nat) :
    Option String :=
  if meetsRequirementsCalc total unique minTransactions minUniqueWallets then none
  else
    let reasons :=
      (if total < minTransactions then
        [s!"Only {total} transactions (requires {minTransactions}+)"] else []) ++
      (if unique < minUniqueWallets then
        [s!"Only {unique} unique wallets (requires {minUniqueWallets}+)"] else [])
    some (String.intercalate "; " reasons)

/-- A failed per-entry result: `{ walletAddress, businessName,
success: false, error }`. -/
def entryFailure (entry : BatchEntry) (msg : String) : VerificationResult :=
  { walletAddress := entry.walletAddress, businessName := entry.businessName,
    success := false, error := some msg }

/-- `processVerification` from the batch function, step for step: wallet
format check (entry failure), rate limit (the entry fails when the RPC
errors, returns no rows, or refuses — `rateLimitError ||
!rateLimitData?.[0]?.allowed`), cache read, ledger fetch (a thrown ledger
error is caught by the entry's catch and recorded as the entry's error
message), decision with the batch reason strings, upsert (entry failure
on store error), and the success result. -/
def processVerification (entry : BatchEntry) (forceRefresh : Bool)
    (minTransactions minUniqueWallets : Nat) (env : EntryEnv) :
    VerificationResult :=
  if !isValidPiWalletAddress (jsTrim entry.walletAddress) then
    entryFailure entry "Invalid Pi Network wallet address format"
  else
    let rlAllowed :=
      match env.rateLimitResult with
      | .error _ => false
      | .ok rows =>
        match rows with
        | [] => false
        | r :: _ => r.allowed
    if !rlAllowed then
      entryFailure entry s!"Rate limit exceeded for wallet {entry.walletAddress}"
    else
      match cacheLookup forceRefresh env.cachedRecord env.now with
      | some r =>
        { walletAddress := entry.walletAddress, businessName := entry.businessName,
          success := true, cached := some true,
          data := some { verificationId := r.id,
                         totalTransactions := r.total_transactions,
                         uniqueWallets := r.unique_wallets,
                         meetsRequirements := r.meets_requirements,
                         failureReason := r.failure_reason,
                         verificationStatus := r.verification_status,
                         verifiedAt := r.updated_at } }
      | none =>
        match fetchAccountPayments (jsTrim entry.walletAddress) env.ledgerPages 0 [] with
        | .error e => entryFailure entry e.message
        | .ok scan =>
          let totalTransactions := scan.1
          let uniqueWalletsCount := scan.2.length
          let meets := meetsRequirementsCalc totalTransactions uniqueWalletsCount
            minTransactions minUniqueWallets
          let reason := batchFailureReason totalTransactions uniqueWalletsCount
            minTransactions minUniqueWallets
          let vstatus := verificationStatusCalc totalTransactions uniqueWalletsCount
            minTransactions minUniqueWallets
          match env.upsertResult with
          | .error _ => entryFailure entry "Failed to save verification data"
          | .ok rowId =>
            { walletAddress := entry.walletAddress,
              businessName := entry.businessName,
              success := true, cached := some false,
              data := some { verificationId := rowId,
                             totalTransactions := totalTransactions,
                             uniqueWallets := uniqueWalletsCount,
                             meetsRequirements := meets,
                             failureReason := reason,
                             verificationStatus := vstatus,
                             verifiedAt := env.now } }

/-- `processWithConcurrency` collects each completed promise's result with
`results.push(result)` inside its `.then` callback, so the results array
lists per-entry results in the order the promises complete.  The model
takes that completion order as an explicit index list: for a batch of at
most `CONCURRENCY_LIMIT` items every index permutation is realisable,
since the loop starts all promises before any await. -/
def processWithConcurrencyModel {α β : Type} (items : List α) (processor : α → β)
    (completionOrder : List Nat) : List β :=
  completionOrder.filterMap (fun i => (items.get? i).map processor)

/-- `MAX_BATCH_SIZE = 10`. -/
def MAX_BATCH_SIZE : Nat := 10

/-- The parsed batch request body. -/
structure BatchRequest where
  verifications : Option (List BatchEntry)
  forceRefresh : Bool := false
  webhookUrl : Option String := none
  webhookSecret : Option String := none
  minTransactions : Option Nat := none
  minUniqueWallets : Option Nat := none
deriving Repr

/-- The batch response as the caller observes it. -/
structure BatchResponse where
  status : Nat
  success : Bool
  batchId : Option String := none
  totalRequested : Option Nat := none
  totalProcessed : Option Nat := none
  totalSuccessful : Option Nat := none
  totalFailed : Option Nat := none
  results : List VerificationResult := []
  webhookQueued : Option Bool := none
  errorMsg : Option String := none
deriving Repr

/-- The external world as one batch request observes it: authentication,
the generated `batchId`, each entry's environment (in input order), and
the order in which the entry promises complete. -/
structure BatchEnv where
  authOk : Bool
  batchId : String
  entryEnvs : List EntryEnv
  completionOrder : List Nat
deriving Repr

/-- A batch error response. -/
def batchErrorResponse (status : Nat) (msg : String) : BatchResponse :=
  { status := status, success := false, errorMsg := some msg }

/-- The batch `serve` handler, step for step: auth (401), envelope
validation — missing/empty `verifications` (400), size over
`MAX_BATCH_SIZE` (400), webhook URL (400), and the per-entry field loop
that rejects the whole envelope with 400 as soon as any entry has a falsy
`walletAddress`, `businessName` or `externalUserId` — then the
concurrency-limited fan-out over `processVerification`, the success/fail
totals, and the 200 response. -/
def serveBatch (req : BatchRequest) (env : BatchEnv) : BatchResponse :=
  if !env.authOk then
    batchErrorResponse 401 "Unauthorized: Invalid or missing API key"
  else
    let effectiveMinTransactions := req.minTransactions.getD 100
    let effectiveMinUniqueWallets := req.minUniqueWallets.getD 10
    match req.verifications with
    | none =>
      batchErrorResponse 400 "verifications array is required and must not be empty"
    | some verifications =>
      if verifications.isEmpty then
        batchErrorResponse 400 "verifications array is required and must not be empty"
      else if MAX_BATCH_SIZE < verifications.length then
        batchErrorResponse 400 s!"Maximum batch size is {MAX_BATCH_SIZE} verifications"
      else if !optionalWebhookUrlOk req.webhookUrl then
        batchErrorResponse 400 "Invalid webhook URL"
      else if verifications.any (fun v =>
          v.walletAddress == "" || v.businessName == "" || v.externalUserId == "") then
        batchErrorResponse 400
          "Each verification requires walletAddress, businessName, and externalUserId"
      else
        let results := processWithConcurrencyModel
          (verifications.zip env.entryEnvs)
          (fun pair => processVerification pair.1 req.forceRefresh
            effectiveMinTransactions effectiveMinUniqueWallets pair.2)
          env.completionOrder
        let totalSuccessful := (results.filter (fun r => r.success)).length
        let totalFailed := (results.filter (fun r => !r.success)).length
        { status := 200, success := true, batchId := some env.batchId,
          totalRequested := some verifications.length,
          totalProcessed := some results.length,
          totalSuccessful := some totalSuccessful,
          totalFailed := some totalFailed,
          results := results,
          webhookQueued := some req.webhookUrl.isSome }

/-! ### The webhook dispatcher's request construction -/

/-- UTF-8 encoding of one character (code point), as
`TextEncoder().encode` produces. -/
def utf8EncodeChar (c : Char) : List Nat :=
  let n := c.toNat
  if n < 128 then [n]
  else if n < 2048 then [192 + n / 64, 128 + n % 64]
  else if n < 65536 then [224 + n / 4096, 128 + n / 64 % 64, 128 + n % 64]
  else [240 + n / 262144, 128 + n / 4096 % 64, 128 + n / 64 % 64, 128 + n % 64]

/-- UTF-8 bytes of a string, as `TextEncoder().encode` produces. -/
def utf8Bytes (s : String) : List Nat :=
  s.toList.flatMap utf8EncodeChar

/-- One hex digit, lowercase: `0`–`9` then `a`–`f`
(`Number.prototype.toString(16)` output alphabet). -/
def hexDigit (n : Nat) : Char :=
  if n < 10 then Char.ofNat (48 + n) else Char.ofNat (87 + n)

/-- `b.toString(16).padStart(2, '0')` for a byte. -/
def byteToHex (b : Nat) : String :=
  String.mk [hexDigit (b / 16 % 16), hexDigit (b % 16)]

/-- The `.map(b => b.toString(16).padStart(2, '0')).join('')` step. -/
def bytesToHex (bs : List Nat) : String :=
  String.join (bs.map byteToHex)

/-- The outbound webhook POST as `sendWebhookNotification` builds it for
one attempt: its headers and the body bytes put on the wire. -/
structure WebhookRequest where
  headers : List (String × String)
  body : List Nat
deriving Repr, DecidableEq

/-- `sendWebhookNotification`'s request construction, parametric in the
payload type `J`, the JSON serialiser (`JSON.stringify`, a function — the
source applies it once in `crypto.subtle.sign(... encoder.encode(
JSON.stringify(payload)))` and once in `body: JSON.stringify(payload)`)
and the HMAC-SHA256 primitive (`crypto.subtle.sign('HMAC', key, data)`
with a key imported from the raw secret bytes).  When a secret is
provided, the `X-Webhook-Signature` header is `sha256=` followed by the
per-byte lowercase-hex rendering of the MAC. -/
def buildWebhookRequest {J : Type} (stringify : J → String)
    (hmacSha256 : List Nat → List Nat → List Nat)
    (payload : J) (event timestamp : String) (webhookSecret : Option String) :
    WebhookRequest :=
  let baseHeaders := [("Content-Type", "application/json"),
                      ("User-Agent", "Avante-Business-Verifier/1.0"),
                      ("X-Webhook-Event", event),
                      ("X-Webhook-Timestamp", timestamp)]
  let headers :=
    match webhookSecret with
    | some secret =>
      let key := utf8Bytes secret
      let signature := hmacSha256 key (utf8Bytes (stringify payload))
      baseHeaders ++ [("X-Webhook-Signature", "sha256=" ++ bytesToHex signature)]
    | none => baseHeaders
  { headers := headers, body := utf8Bytes (stringify payload) }

/-- Header lookup by exact name. -/
def headerValue (r : WebhookRequest) (name : String) : Option String :=
  (r.headers.find? (fun h => h.1 == name)).map (fun h => h.2)

/-! ### Concrete instances used by counterexamples and witnesses -/

/-- A syntactically valid wallet address: `G` followed by 55 `A`s. -/
def testWallet : String := String.mk ('G' :: List.replicate 55 'A')

/-- A well-formed single-verify request. -/
def testRequest : ServeRequest :=
  { walletAddress := some testWallet, businessName := some "Acme",
    externalUserId := some "user-over-quota" }

/-- An allowing rate-limit row. -/
def allowRow : RateLimitRow :=
  { allowed := true, current_count := 1, reset_at := 3600000 }

/-- A benign environment: authenticated, rate limit allows, cold cache,
ledger returns a single short page, upsert succeeds. -/
def baseEnv : ServeEnv :=
  { authOk := true, rateLimitResult := .ok [allowRow], cachedRecord := none,
    now := 10000000, ledgerPages := [PageFetchResult.ok []],
    upsertResult := .ok "id-1" }

/-- The subscription row of `testRequest`'s user (`user-over-quota`): free
tier with its single verification already used, so
`check_verification_allowance` returns `allowed = false` for it. -/
def overQuotaSub : SubscriptionRow :=
  { tier := "free", verifications_used := 1, verifications_limit := 1,
    expires_at := none }

/-- A stored verification record for `testWallet`. -/
def cachedRec : DbRecord :=
  { id := "rec-1", wallet_address := testWallet, business_name := "Acme",
    external_user_id := "user-over-quota", total_transactions := 150,
    unique_wallets := 25, meets_requirements := true, failure_reason := none,
    verification_status := "approved", updated_at := 9000000 }

/-- A batch entry with a valid wallet address. -/
def goodEntry : BatchEntry :=
  { walletAddress := testWallet, businessName := "A", externalUserId := "u1" }

/-- A batch entry with an empty wallet address (falsy in the envelope
check). -/
def emptyWalletEntry : BatchEntry :=
  { walletAddress := "", businessName := "B", externalUserId := "u2" }

/-- A batch entry whose wallet address is non-empty but malformed. -/
def invalidEntry1 : BatchEntry :=
  { walletAddress := "GX", businessName := "C", externalUserId := "u3" }

/-- A second non-empty malformed batch entry. -/
def invalidEntry2 : BatchEntry :=
  { walletAddress := "GY", businessName := "D", externalUserId := "u4" }

/-- A benign per-entry environment. -/
def entryEnvOk : EntryEnv :=
  { rateLimitResult := .ok [allowRow], cachedRecord := none, now := 10000000,
    ledgerPages := [PageFetchResult.ok []], upsertResult := .ok "id-2" }

/-- The batch request of the empty-wallet scenario. -/
def c3req : BatchRequest := { verifications := some [goodEntry, emptyWalletEntry] }

/-- Batch environment for the empty-wallet scenario. -/
def c3env : BatchEnv :=
  { authOk := true, batchId := "batch-1", entryEnvs := [entryEnvOk, entryEnvOk],
    completionOrder := [0, 1] }

/-- Batch request with two distinguishable entries (for the ordering
claim). -/
def c7req : BatchRequest := { verifications := some [invalidEntry1, invalidEntry2] }

/-- Batch environment with a chosen completion order. -/
def c7env (order : List Nat) : BatchEnv :=
  { authOk := true, batchId := "batch-2", entryEnvs := [entryEnvOk, entryEnvOk],
    completionOrder := order }

/-- A batch-entry environment whose rate-limit RPC fails. -/
def rlErrorEnv : EntryEnv := { entryEnvOk with rateLimitResult := .error () }

/-! ## Helper lemmas -/

/-- A string accepted by the wallet-format test is non-empty. -/
theorem isValidPiWalletAddress_pos_length (s : String)
    (h : isValidPiWalletAddress s = true) : 0 < s.length := by
  unfold isValidPiWalletAddress at h
  cases hl : s.toList with
  | nil => rw [hl] at h; exact absurd h (by simp)
  | cons c rest =>
    have : s.length = s.toList.length := rfl
    rw [this, hl]
    exact Nat.succ_pos _

/-- When the wallet string's trim is non-empty the rate-limit gate issues
the RPC, whatever the store answers. -/
theorem rateLimitGate_consulted (w : String)
    (rl : Except Unit (List RateLimitRow)) (hlen : 0 < (jsTrim w).length) :
    (rateLimitGate (some w) rl).1 = true := by
  simp only [rateLimitGate]
  rw [if_pos hlen]
  cases rl with
  | error e => rfl
  | ok rows => cases rows <;> rfl

/-- A failing rate-limit RPC and an allowing one drive the gate to the
same result. -/
theorem rateLimitGate_fail_open (w : Option String) :
    rateLimitGate w (.error ()) = rateLimitGate w (.ok [allowRow]) := by
  cases w with
  | none => rfl
  | some s =>
    unfold rateLimitGate
    by_cases h : 0 < (jsTrim s).length <;> simp [h, allowRow]

/-- Collecting `(l.get? i).map f` over all indices in order yields `l.map f`. -/
theorem filterMap_get_range {α β : Type} (l : List α) (f : α → β) :
    (List.range l.length).filterMap (fun i => (l.get? i).map f) = l.map f := by
  induction l with
  | nil => simp
  | cons a t ih =>
    rw [List.length_cons, List.range_succ_eq_map]
    show f a :: (List.map Nat.succ (List.range t.length)).filterMap
        (fun i => ((a :: t).get? i).map f) = List.map f (a :: t)
    rw [List.filterMap_map]
    have hc : ((fun i => ((a :: t).get? i).map f) ∘ Nat.succ) =
        fun i => (t.get? i).map f := by
      funext i
      rfl
    rw [hc, ih, List.map_cons]

/-- Each hex digit below 16 renders inside the lowercase alphabet. -/
theorem hexDigit_mem (n : Nat) (h : n < 16) :
    hexDigit n ∈ ("0123456789abcdef").toList := by
  interval_cases n <;> decide

/-! ## Claim theorems -/

/-- C1, counterexample: the three-threshold reading of the decision rule is
false on the code.  One outgoing payment from wallet `W` to `X` gives
counters `total = 1`, `credited = 0` (spec-modelled), `unique = 1`; with
thresholds `minTotal = 1`, `minCredited = 1`, `minUnique = 0` the code
approves even though `credited < minCredited`: the decision never reads a
credited counter. -/
theorem C1_counterexample :
    ¬ (verificationStatusCalc
          (scanRecords "W" [⟨"payment", "W", "X", "t1"⟩] (0, [])).1
          (scanRecords "W" [⟨"payment", "W", "X", "t1"⟩] (0, [])).2.length
          1 0 = "approved" ↔
        (1 ≤ (scanRecords "W" [⟨"payment", "W", "X", "t1"⟩] (0, [])).1 ∧
         1 ≤ spec_creditedCount "W" [⟨"payment", "W", "X", "t1"⟩] ∧
         0 ≤ (scanRecords "W" [⟨"payment", "W", "X", "t1"⟩] (0, [])).2.length)) := by
  decide

/-- C1, amended: the decision operation returns status `approved` — and
`meetsRequirements = true` — iff the two thresholds the code actually
checks are satisfied: `total ≥ minTransactions` and
`uniqueCounterparties ≥ minUniqueWallets`.  No credited-transactions
threshold takes part in the decision. -/
theorem C1_decision_rule (total unique minTransactions minUniqueWallets : Nat) :
    (verificationStatusCalc total unique minTransactions minUniqueWallets
        = "approved" ↔
      (minTransactions ≤ total ∧ minUniqueWallets ≤ unique)) ∧
    (meetsRequirementsCalc total unique minTransactions minUniqueWallets
        = true ↔
      (minTransactions ≤ total ∧ minUniqueWallets ≤ unique)) := by
  constructor
  · unfold verificationStatusCalc meetsRequirementsCalc
    by_cases h1 : minTransactions ≤ total <;>
      by_cases h2 : minUniqueWallets ≤ unique <;>
        simp [h1, h2]
  · unfold meetsRequirementsCalc
    simp

/-- C6, counterexample: at the window boundary `now − windowStart = window`
(bucket `count = 5, windowStart = 0`, `now = window = 3600000`, `max = 5`)
the claim demands a reset to `count = 1` and an allowed request, but
`check_rate_limit` refuses: its reset condition is the strict
`window_start < now − window`. -/
theorem C6_counterexample :
    ¬ (3600000 ≤ 3600000 - (0 : Nat) →
        (check_rate_limit (some ⟨5, 0⟩) 3600000 5 3600000).1.allowed = true) := by
  decide

/-- C6, amended: on a wallet with an existing bucket, the bucket resets to
`count = 1, windowStart = now` and the request is allowed when
`now − windowStart` is strictly greater than the window (equivalently
`windowStart + window < now`); otherwise a bucket at `count ≥ max` is
refused and a bucket below `max` is incremented and allowed; in every case
the returned `reset_at` equals the (post-operation) bucket's
`window_start + window`. -/
theorem C6_rate_limit_transitions (b : RateBucket) (now maxRequests window : Nat) :
    (b.window_start + window < now →
      check_rate_limit (some b) now maxRequests window =
        ({ allowed := true, current_count := 1, reset_at := now + window },
         { request_count := 1, window_start := now })) ∧
    (¬ b.window_start + window < now → maxRequests ≤ b.request_count →
      check_rate_limit (some b) now maxRequests window =
        ({ allowed := false, current_count := b.request_count,
           reset_at := b.window_start + window }, b)) ∧
    (¬ b.window_start + window < now → b.request_count < maxRequests →
      check_rate_limit (some b) now maxRequests window =
        ({ allowed := true, current_count := b.request_count + 1,
           reset_at := b.window_start + window },
         { request_count := b.request_count + 1,
           window_start := b.window_start })) ∧
    ((check_rate_limit (some b) now maxRequests window).1.reset_at =
      (check_rate_limit (some b) now maxRequests window).2.window_start + window) := by
  simp only [check_rate_limit]
  refine ⟨fun h => ?_, fun h1 h2 => ?_, fun h1 h2 => ?_, ?_⟩
  · rw [if_pos h]
  · rw [if_neg h1, if_pos h2]
  · rw [if_neg h1, if_neg (by omega)]
  · by_cases h : b.window_start + window < now
    · simp [h]
    · by_cases h2 : maxRequests ≤ b.request_count <;> simp [h, h2]

/-- C6, witness: the amended theorem applied at a concrete reset case
(`window_start = 0`, `window = 3`, `now = 7`, bucket count `2`). -/
theorem C6_rate_limit_transitions_witness :
    check_rate_limit (some ⟨2, 0⟩) 7 5 3 =
      ({ allowed := true, current_count := 1, reset_at := 10 },
       { request_count := 1, window_start := 7 }) :=
  (C6_rate_limit_transitions ⟨2, 0⟩ 7 5 3).1 (by decide)

/-- C2: the claim is right about the intended gate and the code omits it
(code bug).  For `testRequest`'s user the subscription store says
`allowed = false` (free tier, 1 of 1 verifications used), yet the
single-verify pipeline — which contains no call to
`check_verification_allowance` — performs the ledger scan, the upsert and
the usage increment, and answers 200 rather than 403. -/
theorem C2_quota_not_enforced :
    (check_verification_allowance (some overQuotaSub) 10000000).allowed = false ∧
    (serveVerify testRequest baseEnv).response.status = 200 ∧
    (serveVerify testRequest baseEnv).response.status ≠ 403 ∧
    (serveVerify testRequest baseEnv).ledgerScanPerformed = true ∧
    (serveVerify testRequest baseEnv).upsertAttempted = true ∧
    (serveVerify testRequest baseEnv).incrementUsageCalled = true := by
  decide

/-- C4, counterexample: a ledger response of HTTP 500 produces endpoint
status 500, not the claimed 503; a ledger timeout (abort) also produces
500, not the claimed 504.  The catch-all maps every thrown ledger error
to HTTP 500. -/
theorem C4_counterexample :
    ¬ ((serveVerify testRequest
          { baseEnv with
            ledgerPages := [PageFetchResult.status 500 "Internal Server Error"] }
        ).response.status = 503) ∧
    ¬ ((serveVerify testRequest
          { baseEnv with ledgerPages := [PageFetchResult.abortError] }
        ).response.status = 504) := by
  decide

/-- C4, amended: for every single-verify request that reaches the ledger
scan, a ledger failure of any kind — non-2xx non-404 response, network
error, or the 30 s timeout — is answered with HTTP 500 carrying the
thrown error's message (`Pi Network API error: ...` resp.
`Pi Network API request timed out`); no 503 or 504 is produced. -/
theorem C4_ledger_errors_become_500 (req : ServeRequest) (env : ServeEnv)
    (w : String) (e : LedgerError)
    (hauth : env.authOk = true)
    (hweb : optionalWebhookUrlOk req.webhookUrl = true)
    (hw : req.walletAddress = some w)
    (hrl : (rateLimitGate req.walletAddress env.rateLimitResult).2 = none)
    (hvalid : isValidPiWalletAddress (jsTrim w) = true)
    (hbn : isBlankField req.businessName = false)
    (heu : isBlankField req.externalUserId = false)
    (hcache : cacheLookup req.forceRefresh env.cachedRecord env.now = none)
    (hledger : fetchAccountPayments (jsTrim w) env.ledgerPages 0 [] = .error e) :
    (serveVerify req env).response = errorResponse 500 e.message ∧
    (serveVerify req env).ledgerScanPerformed = true ∧
    (serveVerify req env).upsertAttempted = false := by
  rw [hw] at hrl
  simp only [serveVerify, hauth, hweb, hw, hrl, hvalid, hbn, heu, hcache,
    hledger, Bool.not_true, Bool.false_eq_true, if_false]
  simp

/-- C4, witness: the amended theorem applied at `testRequest` with the
ledger answering HTTP 500. -/
theorem C4_ledger_errors_become_500_witness :
    (serveVerify testRequest
        { baseEnv with
          ledgerPages := [PageFetchResult.status 500 "Internal Server Error"] }
      ).response =
      errorResponse 500 (LedgerError.api 500 "Internal Server Error").message :=
  (C4_ledger_errors_become_500 testRequest
    { baseEnv with
      ledgerPages := [PageFetchResult.status 500 "Internal Server Error"] }
    testWallet (LedgerError.api 500 "Internal Server Error")
    (by decide) (by decide) (by decide) (by decide) (by decide) (by decide)
    (by decide) (by decide) rfl).1

/-- C5, counterexample: a request with a valid wallet address and a blank
`businessName` is answered 400 only after the rate limiter has been
consulted, so the claim's "no rate-limit bucket is created or incremented
before the 400" fails. -/
theorem C5_counterexample :
    ¬ (((serveVerify { testRequest with businessName := some "" }
          baseEnv).response.status = 400) ∧
       ((serveVerify { testRequest with businessName := some "" }
          baseEnv).rateLimitConsulted = false)) := by
  decide

/-- C5, amended: a missing `walletAddress` is answered 500 (TypeError in
the catch-all) and a blank one 400, in both cases without consulting the
rate limiter (its guard skips blank wallets); but a blank `businessName`
or `externalUserId` is only rejected with 400 after the rate limiter has
been consulted for the wallet, so such requests do create or increment a
rate-limit bucket. -/
theorem C5_validation_order :
    (∀ (req : ServeRequest) (env : ServeEnv), env.authOk = true →
      optionalWebhookUrlOk req.webhookUrl = true →
      req.walletAddress = none →
      (serveVerify req env).response.status = 500 ∧
      (serveVerify req env).rateLimitConsulted = false) ∧
    (∀ (req : ServeRequest) (env : ServeEnv) (w : String), env.authOk = true →
      optionalWebhookUrlOk req.webhookUrl = true →
      req.walletAddress = some w → jsTrim w = "" →
      (serveVerify req env).response.status = 400 ∧
      (serveVerify req env).rateLimitConsulted = false) ∧
    (∀ (req : ServeRequest) (env : ServeEnv) (w : String), env.authOk = true →
      optionalWebhookUrlOk req.webhookUrl = true →
      req.walletAddress = some w →
      (rateLimitGate req.walletAddress env.rateLimitResult).2 = none →
      isValidPiWalletAddress (jsTrim w) = true →
      (isBlankField req.businessName = true ∨
        isBlankField req.externalUserId = true) →
      (serveVerify req env).response.status = 400 ∧
      (serveVerify req env).rateLimitConsulted = true) := by
  refine ⟨?_, ?_, ?_⟩
  · intro req env hauth hweb hw
    simp only [serveVerify, hauth, hweb, hw, rateLimitGate]
    simp [haltOutcome]
  · intro req env w hauth hweb hw htrim
    have hgate : rateLimitGate (some w) env.rateLimitResult = (false, none) := by
      simp only [rateLimitGate, htrim]
      simp
    simp only [serveVerify, hauth, hweb, hw, hgate, htrim]
    simp [isValidPiWalletAddress, haltOutcome, errorResponse]
  · intro req env w hauth hweb hw hrl hvalid hblank
    rw [hw] at hrl
    have hlen : 0 < (jsTrim w).length :=
      isValidPiWalletAddress_pos_length _ hvalid
    have hcons : (rateLimitGate (some w) env.rateLimitResult).1 = true :=
      rateLimitGate_consulted w env.rateLimitResult hlen
    rcases hblank with hb | hb
    · simp only [serveVerify, hauth, hweb, hw, hrl, hvalid, hb, hcons]
      simp [haltOutcome, errorResponse]
    · by_cases hbn : isBlankField req.businessName
      · simp only [serveVerify, hauth, hweb, hw, hrl, hvalid, hbn, hcons]
        simp [haltOutcome, errorResponse]
      · simp only [serveVerify, hauth, hweb, hw, hrl, hvalid, hb, hcons,
          eq_false_of_ne_true hbn]
        simp [haltOutcome, errorResponse]

/-- C5, witness: the amended theorem's third part applied at a request
with a valid wallet and blank business name in the benign environment. -/
theorem C5_validation_order_witness :
    (serveVerify { testRequest with businessName := some "" }
        baseEnv).response.status = 400 ∧
    (serveVerify { testRequest with businessName := some "" }
        baseEnv).rateLimitConsulted = true :=
  C5_validation_order.2.2 { testRequest with businessName := some "" }
    baseEnv testWallet (by decide) (by decide) (by decide) (by decide)
    (by decide) (Or.inl (by decide))

/-- C8: for every single-verify request with `forceRefresh = false` that
reaches the cache read and finds a persisted record younger than one hour,
the response is 200 with `cached = true`, header `X-Cache: HIT`, and
`cacheExpiresAt = updated_at + 1 h`; no ledger request, no upsert and no
`incrementUsage` call happen. -/
theorem C8_cache_hit (req : ServeRequest) (env : ServeEnv) (w : String)
    (r : DbRecord)
    (hauth : env.authOk = true)
    (hweb : optionalWebhookUrlOk req.webhookUrl = true)
    (hw : req.walletAddress = some w)
    (hrl : (rateLimitGate req.walletAddress env.rateLimitResult).2 = none)
    (hvalid : isValidPiWalletAddress (jsTrim w) = true)
    (hbn : isBlankField req.businessName = false)
    (heu : isBlankField req.externalUserId = false)
    (hfr : req.forceRefresh = false)
    (hcr : env.cachedRecord = some r)
    (hyoung : env.now - r.updated_at < CACHE_DURATION_MS) :
    (serveVerify req env).response.status = 200 ∧
    (serveVerify req env).response.cached = some true ∧
    (serveVerify req env).response.xCache = some "HIT" ∧
    (serveVerify req env).response.cacheExpiresAt =
      some (r.updated_at + CACHE_DURATION_MS) ∧
    (serveVerify req env).response.data = some (dataOfRecord r) ∧
    (serveVerify req env).ledgerScanPerformed = false ∧
    (serveVerify req env).upsertAttempted = false ∧
    (serveVerify req env).incrementUsageCalled = false := by
  rw [hw] at hrl
  have hcache : cacheLookup req.forceRefresh env.cachedRecord env.now = some r := by
    simp only [cacheLookup, hfr, hcr]
    simp [hyoung]
  simp only [serveVerify, hauth, hweb, hw, hrl, hvalid, hbn, heu, hcache]
  simp [haltOutcome]

/-- C8, witness: the theorem applied at `testRequest` against a store
holding a record 1 000 000 ms old. -/
theorem C8_cache_hit_witness :
    (serveVerify testRequest
        { baseEnv with cachedRecord := some cachedRec }).response.cached =
      some true ∧
    (serveVerify testRequest
        { baseEnv with cachedRecord := some cachedRec }).ledgerScanPerformed =
      false :=
  have h := C8_cache_hit testRequest
    { baseEnv with cachedRecord := some cachedRec } testWallet cachedRec
    (by decide) (by decide) (by decide) (by decide) (by decide) (by decide)
    (by decide) (by decide) (by decide) (by decide)
  ⟨h.2.1, h.2.2.2.2.2.1⟩

/-- C10: a failing rate-limit store call is handled asymmetrically.  In
the single-verify pipeline the error is only logged and the request
proceeds exactly as if the limiter had allowed it — the whole outcome
equals the outcome under an allowing store row.  In the batch pipeline
the same store error marks the entry as failed with the rate-limit error
message. -/
theorem C10_rate_limit_store_error :
    (∀ (req : ServeRequest) (env : ServeEnv),
      env.rateLimitResult = .error () →
      serveVerify req env =
        serveVerify req { env with rateLimitResult := .ok [allowRow] }) ∧
    (∀ (entry : BatchEntry) (forceRefresh : Bool)
        (minTransactions minUniqueWallets : Nat) (env : EntryEnv),
      env.rateLimitResult = .error () →
      isValidPiWalletAddress (jsTrim entry.walletAddress) = true →
      processVerification entry forceRefresh minTransactions minUniqueWallets
          env =
        entryFailure entry
          s!"Rate limit exceeded for wallet {entry.walletAddress}") := by
  constructor
  · intro req env h
    have hgate : rateLimitGate req.walletAddress env.rateLimitResult =
        rateLimitGate req.walletAddress (.ok [allowRow]) := by
      rw [h]
      exact rateLimitGate_fail_open req.walletAddress
    simp only [serveVerify, hgate]
  · intro entry forceRefresh minT minU env h hvalid
    simp only [processVerification, hvalid, h]
    simp

/-- C10, witness: both parts applied at concrete inputs — the single
pipeline on `testRequest` with a failing store equals the allowed-store
run, and the batch entry `goodEntry` fails under the same store error. -/
theorem C10_rate_limit_store_error_witness :
    serveVerify testRequest { baseEnv with rateLimitResult := .error () } =
      serveVerify testRequest { baseEnv with rateLimitResult := .ok [allowRow] } ∧
    processVerification goodEntry false 100 10 rlErrorEnv =
      entryFailure goodEntry
        s!"Rate limit exceeded for wallet {goodEntry.walletAddress}" :=
  ⟨by
    have h := C10_rate_limit_store_error.1 testRequest
      { baseEnv with rateLimitResult := .error () } rfl
    simpa using h,
   C10_rate_limit_store_error.2 goodEntry false 100 10 rlErrorEnv rfl
     (by decide)⟩

/-- C3, counterexample: a batch of one valid entry and one entry with
`walletAddress = ""` is not answered 200 with that entry failed —
the envelope's field loop rejects the whole batch with 400, so no entry
is processed and no `totalFailed` is reported. -/
theorem C3_counterexample :
    ¬ ((serveBatch c3req c3env).status = 200 ∧
       (serveBatch c3req c3env).totalFailed = some 1) := by
  decide

/-- C3, amended: an entry whose `walletAddress` (or `businessName` or
`externalUserId`) is the empty string fails envelope validation and
rejects the entire batch with 400 before any entry runs; per-entry
isolation holds only past the envelope: an entry whose wallet address is
non-empty but malformed yields that entry's
`success = false, error = "Invalid Pi Network wallet address format"`
without affecting siblings, the batch answers 200, and `totalFailed`
counts exactly the failed entries. -/
theorem C3_batch_validation :
    (∀ (req : BatchRequest) (env : BatchEnv) (vs : List BatchEntry),
      env.authOk = true → req.verifications = some vs →
      vs.isEmpty = false → vs.length ≤ MAX_BATCH_SIZE →
      optionalWebhookUrlOk req.webhookUrl = true →
      vs.any (fun v => v.walletAddress == "" || v.businessName == "" ||
        v.externalUserId == "") = true →
      serveBatch req env = batchErrorResponse 400
        "Each verification requires walletAddress, businessName, and externalUserId") ∧
    (∀ (entry : BatchEntry) (forceRefresh : Bool)
        (minTransactions minUniqueWallets : Nat) (env : EntryEnv),
      isValidPiWalletAddress (jsTrim entry.walletAddress) = false →
      processVerification entry forceRefresh minTransactions minUniqueWallets
          env =
        entryFailure entry "Invalid Pi Network wallet address format") ∧
    (∀ (req : BatchRequest) (env : BatchEnv) (vs : List BatchEntry),
      env.authOk = true → req.verifications = some vs →
      vs.isEmpty = false → vs.length ≤ MAX_BATCH_SIZE →
      optionalWebhookUrlOk req.webhookUrl = true →
      vs.any (fun v => v.walletAddress == "" || v.businessName == "" ||
        v.externalUserId == "") = false →
      (serveBatch req env).status = 200 ∧
      (serveBatch req env).results = processWithConcurrencyModel
        (vs.zip env.entryEnvs)
        (fun pair => processVerification pair.1 req.forceRefresh
          (req.minTransactions.getD 100) (req.minUniqueWallets.getD 10) pair.2)
        env.completionOrder ∧
      (serveBatch req env).totalFailed =
        some (((serveBatch req env).results.filter
          (fun r => !r.success)).length)) := by
  refine ⟨?_, ?_, ?_⟩
  · intro req env vs hauth hv hne hlen hweb hany
    have hlen' : ¬ MAX_BATCH_SIZE < vs.length := Nat.not_lt.mpr hlen
    simp only [serveBatch, hauth, hv, hne, hweb, hany, if_neg hlen']
    simp
  · intro entry forceRefresh minT minU env hvalid
    simp only [processVerification, hvalid]
    simp
  · intro req env vs hauth hv hne hlen hweb hany
    have hlen' : ¬ MAX_BATCH_SIZE < vs.length := Nat.not_lt.mpr hlen
    simp only [serveBatch, hauth, hv, hne, hweb, hany, if_neg hlen']
    simp

/-- C3, witness: the envelope part applied at the concrete two-entry batch
with one empty wallet address. -/
theorem C3_batch_validation_witness :
    serveBatch c3req c3env = batchErrorResponse 400
      "Each verification requires walletAddress, businessName, and externalUserId" :=
  C3_batch_validation.1 c3req c3env [goodEntry, emptyWalletEntry]
    (by decide) rfl (by decide) (by decide) (by decide) (by decide)

/-- C7, counterexample: with two entries and the valid interleaving in
which the second entry's promise completes first (`completionOrder =
[1, 0]`, a permutation of the indices), the batch results array is not in
input order: `results.push` runs in completion order. -/
theorem C7_counterexample :
    ([1, 0] : List Nat).Perm
      (List.range ([invalidEntry1, invalidEntry2] : List BatchEntry).length) ∧
    (serveBatch c7req (c7env [1, 0])).results ≠
      ([invalidEntry1, invalidEntry2].zip [entryEnvOk, entryEnvOk]).map
        (fun p => processVerification p.1 false 100 10 p.2) := by
  decide

/-- C7, amended: the results array lists per-entry results in promise
completion order, not input order.  For every completion order that is a
permutation of the entry indices the results are a permutation of the
input-order per-entry results, and they coincide with input order exactly
when the entries complete in input order. -/
theorem C7_results_follow_completion_order {α β : Type} (items : List α)
    (processor : α → β) (completionOrder : List Nat)
    (h : completionOrder.Perm (List.range items.length)) :
    (processWithConcurrencyModel items processor completionOrder).Perm
      (items.map processor) ∧
    (completionOrder = List.range items.length →
      processWithConcurrencyModel items processor completionOrder =
        items.map processor) := by
  constructor
  · have hp := h.filterMap (fun i => (items.get? i).map processor)
    rw [filterMap_get_range] at hp
    exact hp
  · intro ho
    rw [processWithConcurrencyModel, ho, filterMap_get_range]

/-- C7, witness: the amended theorem applied to a two-element list under
the swapped completion order. -/
theorem C7_results_follow_completion_order_witness :
    (processWithConcurrencyModel [10, 20] (fun n => n + 1) [1, 0]).Perm
      ([10, 20].map (fun n => n + 1)) :=
  (C7_results_follow_completion_order [10, 20] (fun n => n + 1) [1, 0]
    (by decide)).1

/-- C9: whenever a webhook secret is provided, the dispatcher's
`X-Webhook-Signature` header is `sha256=` followed by the hex rendering of
`HMAC-SHA256(key, message)` where the key is the raw UTF-8 bytes of the
secret and the message is exactly the body bytes sent on the wire (both
are `JSON.stringify(payload)` encoded once by `TextEncoder`); and the hex
rendering writes every byte as two characters from the lowercase alphabet
`0123456789abcdef`. -/
theorem C9_signature_matches_wire_body {J : Type} (stringify : J → String)
    (hmacSha256 : List Nat → List Nat → List Nat) (payload : J)
    (event timestamp secret : String) :
    (buildWebhookRequest stringify hmacSha256 payload event timestamp
        (some secret)).body = utf8Bytes (stringify payload) ∧
    headerValue
        (buildWebhookRequest stringify hmacSha256 payload event timestamp
          (some secret)) "X-Webhook-Signature" =
      some ("sha256=" ++ bytesToHex (hmacSha256 (utf8Bytes secret)
        ((buildWebhookRequest stringify hmacSha256 payload event timestamp
          (some secret)).body))) ∧
    (∀ b : Nat, (byteToHex b).toList.length = 2 ∧
      ∀ c ∈ (byteToHex b).toList, c ∈ ("0123456789abcdef").toList) := by
  refine ⟨rfl, rfl, fun b => ⟨rfl, fun c hc => ?_⟩⟩
  have h1 : b / 16 % 16 < 16 := Nat.mod_lt _ (by norm_num)
  have h2 : b % 16 < 16 := Nat.mod_lt _ (by norm_num)
  have hl : (byteToHex b).toList = [hexDigit (b / 16 % 16), hexDigit (b % 16)] := rfl
  rw [hl] at hc
  simp only [List.mem_cons, List.not_mem_nil, or_false] at hc
  rcases hc with hc | hc
  · exact hc ▸ hexDigit_mem _ h1
  · exact hc ▸ hexDigit_mem _ h2

/-- C9, witness: the theorem applied at a concrete payload, secret and a
concrete stand-in MAC function. -/
theorem C9_signature_matches_wire_body_witness :
    headerValue
        (buildWebhookRequest (fun s : String => s)
          (fun key msg => key ++ msg) "\x7b\x7d" "verification.completed"
          "2026-01-01T00:00:00.000Z" (some "sec")) "X-Webhook-Signature" =
      some ("sha256=" ++ bytesToHex ((utf8Bytes "sec") ++ (utf8Bytes "\x7b\x7d"))) :=
  (C9_signature_matches_wire_body (fun s : String => s)
    (fun key msg => key ++ msg) "\x7b\x7d" "verification.completed"
    "2026-01-01T00:00:00.000Z" "sec").2.1

end AvanteVerifier
